import Mathlib

/-!
Verification of the LLM-TTS streaming playback core: a shallow embedding of
`src/RealtimeMp3Player.py` (the decode/playback engine) and `src/sever.py`
(the session controller), with theorems settling the specification claims.

Modelling conventions:
* Python object state becomes a Lean structure; each method becomes a pure
  function from the old state to the new state (plus observable outputs).
* External handles (the ffmpeg subprocess, the PyAudio stream, the play
  thread) are modelled by small structures recording the observable facts the
  code queries about them (`poll() is None`, `is_active()`, `is_alive()`),
  including a flag for whether a query raises, since the code guards some of
  those queries with try/except.
* Byte strings are represented by their lengths (the code only ever takes
  `len` of them and relays them opaquely).
* Methods that acquire a lock and mutate are modelled as atomic steps of a
  trace; interleavings are sequences of such steps.
-/

namespace LLMTTS

/-- Observable state of the ffmpeg decode subprocess handle:
whether its stdin pipe is open and writable, whether `poll()` reports the
process still running (`poll() is None`), and whether the `poll()` query
itself raises. -/
structure FfmpegProc where
  stdin_open : Bool
  running : Bool
  poll_fails : Bool
deriving DecidableEq

/-- Observable state of the PyAudio output stream handle: the
`is_active()` flag and whether the `is_active()` query raises (the code
wraps some of those calls in try/except). -/
structure AudioStream where
  active : Bool
  active_query_fails : Bool
deriving DecidableEq

/-- Observable state of a Python `threading.Thread` handle: whether
`is_alive()` returns true. -/
structure PlayThread where
  alive : Bool
deriving DecidableEq

/-- State of `RealtimeMp3Player` (src/RealtimeMp3Player.py, `__init__`).
`spawn_count` is a ghost counter of how many `threading.Thread` objects
`write` has ever created for this instance; it mirrors no Python field but
only counts the `threading.Thread(...)` constructions in `write`. -/
structure RealtimeMp3Player where
  ffmpeg_process : Option FfmpegProc
  stream : Option AudioStream
  player : Option Unit
  play_thread : Option PlayThread
  stop_event : Bool
  is_stopped : Bool
  audio_buffer_size : Int
  spawn_count : Nat
deriving DecidableEq

/-- Snapshot returned by `get_buffer_status` (the dict built at
src/RealtimeMp3Player.py lines 267-274). -/
structure BufferStatus where
  is_playing : Bool
  buffer_size : Int
  ffmpeg_process_active : Bool
  play_thread_alive : Bool
  stream_active : Bool
  is_stopped : Bool
deriving DecidableEq

/-- Teardown side effects performed by `stop` / `force_stop`, recorded so
that idempotence ("no double release") is observable. -/
inductive TeardownAction where
  | joinThread
  | closeStdin
  | waitProc
  | killProc
  | closeStream
  | terminatePlayer
deriving DecidableEq

namespace RealtimeMp3Player

/-- `__init__`: all handles absent, flags cleared, buffer counter zero. -/
def init : RealtimeMp3Player :=
  { ffmpeg_process := none
    stream := none
    player := none
    play_thread := none
    stop_event := false
    is_stopped := false
    audio_buffer_size := 0
    spawn_count := 0 }

/-- `start` (lines 53-78): if not stopped, acquire the PyAudio instance,
open the output stream, and spawn the ffmpeg decode process with an open
stdin pipe. -/
def start (p : RealtimeMp3Player) : RealtimeMp3Player :=
  if p.is_stopped then p
  else
    { p with
      player := some ()
      stream := some { active := true, active_query_fails := false }
      ffmpeg_process := some { stdin_open := true, running := true, poll_fails := false } }

/-- `write` (lines 190-219): no-op if stopped or cancellation requested;
otherwise feed the frame to the ffmpeg stdin (a closed stdin makes the
write raise, which is caught, leaving the state unchanged), increment the
buffer counter by the frame length, and on the first call start the stream
and spawn the single play thread. The returned Bool reports whether the
frame reached the decode pipeline. -/
def write (p : RealtimeMp3Player) (dataLen : Nat) : RealtimeMp3Player × Bool :=
  if p.is_stopped || p.stop_event then (p, false)
  else
    match p.ffmpeg_process with
    | none => (p, false)
    | some proc =>
      if proc.stdin_open then
        let p1 := { p with audio_buffer_size := p.audio_buffer_size + dataLen }
        match p1.play_thread with
        | none =>
          ({ p1 with
              stream := p1.stream.map (fun s => { s with active := true })
              play_thread := some { alive := true }
              spawn_count := p1.spawn_count + 1 }, true)
        | some _ => (p1, true)
      else (p, false)

/-- One iteration of the `play_audio` drain loop (lines 143-188) that read
`pcmLen` bytes of PCM: nothing happens if the stop event is set, a handle is
gone, or the read returned no data (the loop breaks); otherwise the chunk is
written to the device and the buffer counter is clamped-decremented
(`max(0, size - len(pcm_data))`, line 175). -/
def drain_step (p : RealtimeMp3Player) (pcmLen : Nat) : RealtimeMp3Player :=
  if p.stop_event then p
  else if p.ffmpeg_process.isNone then p
  else if p.stream.isNone then p
  else if pcmLen = 0 then p
  else { p with audio_buffer_size := max 0 (p.audio_buffer_size - pcmLen) }

/-- The play thread finishing on its own: the `Thread` object remains but
`is_alive()` becomes false. -/
def thread_exit (p : RealtimeMp3Player) : RealtimeMp3Player :=
  { p with play_thread := p.play_thread.map (fun _ => { alive := false }) }

/-- `stop` (lines 80-141): graceful shutdown. Early return when already
stopped; otherwise set the flags, join the play thread if alive, close the
ffmpeg stdin and wait for the process, close the stream, terminate the
PyAudio instance. The buffer counter is not touched. The action list
records each release actually performed. -/
def stop (p : RealtimeMp3Player) : RealtimeMp3Player × List TeardownAction :=
  if p.is_stopped then (p, [])
  else
    let p0 := { p with is_stopped := true, stop_event := true }
    let joinA : List TeardownAction :=
      match p0.play_thread with
      | some t => if t.alive then [.joinThread] else []
      | none => []
    let p1 :=
      match p0.play_thread with
      | some t => if t.alive then { p0 with play_thread := none } else p0
      | none => p0
    let ffA : List TeardownAction :=
      match p1.ffmpeg_process with
      | some _ => [.closeStdin, .waitProc]
      | none => []
    let p2 := { p1 with ffmpeg_process := none }
    let stA : List TeardownAction :=
      match p2.stream with
      | some _ => [.closeStream]
      | none => []
    let p3 := { p2 with stream := none }
    let plA : List TeardownAction :=
      match p3.player with
      | some _ => [.terminatePlayer]
      | none => []
    let p4 := { p3 with player := none }
    (p4, joinA ++ ffA ++ stA ++ plA)

/-- `force_stop` (lines 276-336): immediate shutdown. Early return when
already stopped; otherwise set the flags, kill the ffmpeg process, join the
play thread if alive, close the stream, terminate the PyAudio instance, and
reset the buffer counter to zero (lines 328-330). -/
def force_stop (p : RealtimeMp3Player) : RealtimeMp3Player × List TeardownAction :=
  if p.is_stopped then (p, [])
  else
    let p0 := { p with is_stopped := true, stop_event := true }
    let ffA : List TeardownAction :=
      match p0.ffmpeg_process with
      | some _ => [.killProc, .waitProc]
      | none => []
    let p1 := { p0 with ffmpeg_process := none }
    let joinA : List TeardownAction :=
      match p1.play_thread with
      | some t => if t.alive then [.joinThread] else []
      | none => []
    let p2 :=
      match p1.play_thread with
      | some t => if t.alive then { p1 with play_thread := none } else p1
      | none => p1
    let stA : List TeardownAction :=
      match p2.stream with
      | some _ => [.closeStream]
      | none => []
    let p3 := { p2 with stream := none }
    let plA : List TeardownAction :=
      match p3.player with
      | some _ => [.terminatePlayer]
      | none => []
    let p4 := { p3 with player := none, audio_buffer_size := 0 }
    (p4, ffA ++ joinA ++ stA ++ plA)

/-- Whether the play thread handle exists and `is_alive()` is true. -/
def thread_alive (p : RealtimeMp3Player) : Bool :=
  match p.play_thread with
  | some t => t.alive
  | none => false

/-- `is_playing` (lines 221-255), translated clause by clause: return False
when stopped; return True when the play thread is alive; when an ffmpeg
handle exists, return what `poll()` says (False if the query raises) and do
not fall through; when a stream handle exists, return `is_active()` but fall
through to the buffer check if that query raises; otherwise return whether
the buffer counter is positive. Total - it never raises. -/
def is_playing (p : RealtimeMp3Player) : Bool :=
  if p.is_stopped then false
  else if p.thread_alive then true
  else
    match p.ffmpeg_process with
    | some proc => if proc.poll_fails then false else proc.running
    | none =>
      match p.stream with
      | some s =>
        if s.active_query_fails then decide (0 < p.audio_buffer_size) else s.active
      | none => decide (0 < p.audio_buffer_size)

/-- `get_buffer_status` (lines 257-274). The `poll()` used for
`ffmpeg_process_active` and the `is_active()` used for `stream_active` are
not exception-guarded in the source, so a failing query propagates out of
the method; that partiality is modelled by `none`. -/
def get_buffer_status (p : RealtimeMp3Player) : Option BufferStatus :=
  let pollOk : Bool :=
    match p.ffmpeg_process with
    | some proc => !proc.poll_fails
    | none => true
  let streamOk : Bool :=
    match p.stream with
    | some s => !s.active_query_fails
    | none => true
  if pollOk && streamOk then
    some
      { is_playing := p.is_playing
        buffer_size := p.audio_buffer_size
        ffmpeg_process_active :=
          match p.ffmpeg_process with
          | some proc => proc.running
          | none => false
        play_thread_alive := p.thread_alive
        stream_active :=
          match p.stream with
          | some s => s.active
          | none => false
        is_stopped := p.is_stopped }
  else none

end RealtimeMp3Player

/-- The engine state right after `__init__` followed by `start()`. -/
def started_player : RealtimeMp3Player :=
  RealtimeMp3Player.init.start

/-- Events an engine instance can undergo; each is one atomic step of the
source methods above. `reset()` is deliberately absent: the source documents
it as re-initialising the object for a fresh lifecycle, and the controller
in src/sever.py never calls it. -/
inductive PlayerEvent where
  | startEv
  | writeEv (dataLen : Nat)
  | drainEv (pcmLen : Nat)
  | stopEv
  | forceStopEv
  | threadExitEv
deriving DecidableEq

/-- Apply one engine event. -/
def player_step (p : RealtimeMp3Player) (e : PlayerEvent) : RealtimeMp3Player :=
  match e with
  | .startEv => p.start
  | .writeEv n => (p.write n).1
  | .drainEv n => p.drain_step n
  | .stopEv => (RealtimeMp3Player.stop p).1
  | .forceStopEv => (RealtimeMp3Player.force_stop p).1
  | .threadExitEv => p.thread_exit

/-- Run a sequence of engine events. -/
def player_run (p : RealtimeMp3Player) (es : List PlayerEvent) : RealtimeMp3Player :=
  es.foldl player_step p

/-- State of `SpeechSession` (src/sever.py, lines 57-70). The dashscope
synthesizer handle is tracked only by presence, as the code never calls
anything on it except `streaming_call` / `streaming_complete`. -/
structure SpeechSession where
  session_id : Nat
  query_text : List String
  voice : String
  model : String
  player : Option RealtimeMp3Player
  has_synthesizer : Bool
  thread : Option PlayThread
  stop_event : Bool
  is_stopped : Bool
  synthesis_complete : Bool
  all_text_processed : Bool
deriving DecidableEq

namespace SpeechSession

/-- `SpeechSession.stop` (src/sever.py lines 72-104): early return when
already stopped; otherwise set `is_stopped` and the stop event, force-stop
the player (if any) and drop it, drop the synthesizer, and set both
completion latches. The second component is the state of the player object
after its `force_stop`, returned so the fate of the engine that the session
owned stays observable after the session drops its reference. -/
def stop (s : SpeechSession) : SpeechSession × Option RealtimeMp3Player :=
  if s.is_stopped then (s, none)
  else
    let s1 := { s with is_stopped := true, stop_event := true }
    let pair :=
      match s1.player with
      | some pl => ({ s1 with player := none }, some (RealtimeMp3Player.force_stop pl).1)
      | none => (s1, (none : Option RealtimeMp3Player))
    let s2 := { pair.1 with has_synthesizer := false }
    ({ s2 with synthesis_complete := true, all_text_processed := true }, pair.2)

end SpeechSession

/-- State of the encoder callback adapter (the `Callback` class defined
inside `run_speech`, src/sever.py lines 123-151): the session it is bound
to and the `data_received` counter. -/
structure Callback where
  session : SpeechSession
  data_received : Nat
deriving DecidableEq

namespace Callback

/-- `Callback.on_data` (src/sever.py lines 145-151): always increment
`data_received`; then, only if the session's stop event is not set and the
session still holds a player, call `player.write` on the frame. The Bool
reports whether `player.write` was invoked at all. -/
def on_data (cb : Callback) (dataLen : Nat) : Callback × Bool :=
  let cb1 := { cb with data_received := cb.data_received + 1 }
  if !cb1.session.stop_event then
    match cb1.session.player with
    | some pl =>
      ({ cb1 with session := { cb1.session with player := some (pl.write dataLen).1 } }, true)
    | none => (cb1, false)
  else (cb1, false)

end Callback

/-- Failure oracle for one run of the orchestration worker: which fallible
external steps raise. `stream_call_raises` is consumed one entry per
`streaming_call` invocation (`headD false` when exhausted). -/
structure WorkerEnv where
  start_raises : Bool
  synth_create_raises : Bool
  stream_call_raises : List Bool
  complete_raises : Bool
deriving DecidableEq

/-- The fragment-submission loop of `run_speech` (src/sever.py lines
162-173): for each chunk, break if the stop event is set; skip
whitespace-only chunks; submit the chunk unless `streaming_call` raises,
in which case the exception is caught inside the loop and the loop breaks.
Returns the chunks actually submitted to the encoder, in order. -/
def submit_chunks (stopEv : Bool) : List String → List Bool → List String
  | [], _ => []
  | c :: cs, rs =>
    if stopEv then []
    else if c.trim ≠ "" then
      if rs.headD false then []
      else c :: submit_chunks stopEv cs rs.tail
    else submit_chunks stopEv cs rs

/-- The `finally` block of `run_speech` for the case where the player was
started (src/sever.py lines 185-224): the bounded wait on the synthesis
latch and the bounded `is_playing` poll loop mutate nothing; then
`player.stop()` runs inside try/except. -/
def run_finally (s : SpeechSession) : SpeechSession :=
  match s.player with
  | some pl => { s with player := some (RealtimeMp3Player.stop pl).1 }
  | none => s

/-- `run_speech` (src/sever.py lines 107-224), the orchestration worker,
as a function of the session state at entry and the failure oracle.
Returns the session state when the worker ends, the chunks submitted to
the encoder, and whether an exception escaped the worker (the body is
wrapped in try/except/finally, every step inside `finally` is itself
guarded, so this is always `false`). When `start()` raises, the fresh
player was already assigned to the session but `player_started` is still
false, so the `finally` block does not stop it. `streaming_complete` may
raise (`env.complete_raises`); either way the outer except absorbs it and
control reaches the same `finally`. -/
def run_speech (s : SpeechSession) (env : WorkerEnv) : SpeechSession × List String × Bool :=
  if s.stop_event then (s, [], false)
  else if env.start_raises then
    ({ s with player := some RealtimeMp3Player.init }, [], false)
  else
    let s1 := { s with player := some RealtimeMp3Player.init.start }
    if env.synth_create_raises then (run_finally s1, [], false)
    else
      let s2 := { s1 with has_synthesizer := true }
      let submitted := submit_chunks s2.stop_event s2.query_text env.stream_call_raises
      let s3 := { s2 with all_text_processed := true }
      (run_finally s3, submitted, false)

/-- Controller response of the `/stop` endpoint (`StopResponse`,
src/sever.py lines 51-54). -/
structure StopResponse where
  status : String
  message : String
  session_id : Option Nat
deriving DecidableEq

/-- Controller response of the `/speak` endpoint (the dict returned at
src/sever.py lines 267-273, restricted to the fields the claims mention). -/
structure StartResponse where
  status : String
  session_id : Nat
  message : String
deriving DecidableEq

/-- Global controller state: the `current_session` slot and the session
counter (src/sever.py lines 38-40 and 227). -/
structure ControllerState where
  current_session : Option SpeechSession
  session_counter : Nat
deriving DecidableEq

/-- Ordered trace of the externally meaningful steps `start_speech`
performs synchronously under the controller lock. The new session's engine
is created only later, by the worker launched at `spawnWorker`, so no
engine-start for the new session can precede the `spawnWorker` event. -/
inductive CtrlEvent where
  | stopPrev (sid : Nat) (engineAfter : Option RealtimeMp3Player)
  | joinPrevThread (sid : Nat)
  | createSession (sid : Nat)
  | spawnWorker (sid : Nat)
deriving DecidableEq

/-- Construction of a fresh `SpeechSession` (src/sever.py lines 253-258
with the `__init__` at lines 58-70). -/
def new_session (sid : Nat) (texts : List String) : SpeechSession :=
  { session_id := sid
    query_text := texts
    voice := "cosyvoice-v3-prefix-36d6a3f4cbae4cd8bd3664acba2cc891"
    model := "cosyvoice-v3"
    player := none
    has_synthesizer := false
    thread := none
    stop_event := false
    is_stopped := false
    synthesis_complete := false
    all_text_processed := false }

/-- `start_speech`, the `/speak` endpoint (src/sever.py lines 236-277):
under the controller lock, stop the previous session (its `stop` force
stops its engine synchronously) and join its thread, clear the slot,
allocate the next id, construct the new session, spawn its worker thread,
and return the started response. The event list is the order in which
those steps happen. -/
def start_speech (c : ControllerState) (texts : List String) :
    ControllerState × List CtrlEvent × StartResponse :=
  let prev :=
    match c.current_session with
    | some s =>
      let stopped := s.stop
      ({ c with current_session := none },
        [CtrlEvent.stopPrev s.session_id stopped.2, CtrlEvent.joinPrevThread s.session_id])
    | none => (c, [])
  let c1 := prev.1
  let sid := c1.session_counter + 1
  let sess := { new_session sid texts with thread := some { alive := true } }
  ({ current_session := some sess, session_counter := sid },
    prev.2 ++ [CtrlEvent.createSession sid, CtrlEvent.spawnWorker sid],
    { status := "started", session_id := sid, message := "Speech synthesis started" })

/-- `stop_speech`, the `/stop` endpoint (src/sever.py lines 279-304): if a
current session exists, stop it, join its thread, and clear the slot; in
both cases return the same success response. The `session_id` field is
computed from `current_session` after the slot was cleared, so it is always
`none`. The `stop` of the session cannot raise in this model, so the
HTTPException branch of the source is unreachable here. -/
def stop_speech (c : ControllerState) : ControllerState × StopResponse :=
  let c1 :=
    match c.current_session with
    | some s =>
      let _stopped := s.stop
      { c with current_session := none }
    | none => c
  (c1,
    { status := "stopped"
      message := "Stopped successfully"
      session_id :=
        match c1.current_session with
        | some s => some s.session_id
        | none => none })

/-! Helper lemmas shared by the claim theorems. -/

namespace RealtimeMp3Player

/-- A stopped engine makes `stop` an early-return no-op with no teardown actions. -/
theorem stop_of_stopped (p : RealtimeMp3Player) (h : p.is_stopped = true) :
    RealtimeMp3Player.stop p = (p, []) := by
  unfold RealtimeMp3Player.stop
  simp [h]

/-- A stopped engine makes `force_stop` an early-return no-op with no teardown actions. -/
theorem force_stop_of_stopped (p : RealtimeMp3Player) (h : p.is_stopped = true) :
    RealtimeMp3Player.force_stop p = (p, []) := by
  unfold RealtimeMp3Player.force_stop
  simp [h]

/-- After `stop`, the stopped flag is set. -/
theorem stop_fst_is_stopped (p : RealtimeMp3Player) :
    ((RealtimeMp3Player.stop p).1).is_stopped = true := by
  obtain ⟨ff, st, pl, th, se, isp, buf, sc⟩ := p
  cases isp <;> rcases th with _ | ⟨_ | _⟩ <;> rfl

/-- After `force_stop`, the stopped flag is set. -/
theorem force_stop_fst_is_stopped (p : RealtimeMp3Player) :
    ((RealtimeMp3Player.force_stop p).1).is_stopped = true := by
  obtain ⟨ff, st, pl, th, se, isp, buf, sc⟩ := p
  cases isp <;> rcases th with _ | ⟨_ | _⟩ <;> rfl

/-- Graceful `stop` never touches the buffered-byte counter. -/
theorem stop_fst_buffer (p : RealtimeMp3Player) :
    ((RealtimeMp3Player.stop p).1).audio_buffer_size = p.audio_buffer_size := by
  obtain ⟨ff, st, pl, th, se, isp, buf, sc⟩ := p
  cases isp <;> rcases th with _ | ⟨_ | _⟩ <;> rfl

/-- `force_stop` on a not-yet-stopped engine releases every handle, marks
the engine stopped, and zeroes the buffered-byte counter. -/
theorem force_stop_fst_released (p : RealtimeMp3Player) (h : p.is_stopped = false) :
    ((RealtimeMp3Player.force_stop p).1).ffmpeg_process = none ∧
    ((RealtimeMp3Player.force_stop p).1).stream = none ∧
    ((RealtimeMp3Player.force_stop p).1).player = none ∧
    ((RealtimeMp3Player.force_stop p).1).is_stopped = true ∧
    ((RealtimeMp3Player.force_stop p).1).audio_buffer_size = 0 := by
  obtain ⟨ff, st, pl, th, se, isp, buf, sc⟩ := p
  cases isp
  case false => rcases th with _ | ⟨_ | _⟩ <;> exact ⟨rfl, rfl, rfl, rfl, rfl⟩
  case true => exact Bool.noConfusion h

end RealtimeMp3Player

/-! Claim theorems. -/

/-- C1: once the cancel flag (stop event) is set, the encoder callback
forwards nothing to the player (`on_data` never invokes `player.write` and
leaves the session unchanged), and the engine `write` is a no-op that
writes nothing to the decode pipeline and changes no state. -/
theorem C1_cancel_suppresses_output (cb : Callback) (p : RealtimeMp3Player) (n m : Nat)
    (hcb : cb.session.stop_event = true) (hp : p.stop_event = true) :
    ((cb.on_data n).2 = false ∧ (cb.on_data n).1.session = cb.session) ∧
    RealtimeMp3Player.write p m = (p, false) := by
  constructor
  · unfold Callback.on_data
    simp [hcb]
  · unfold RealtimeMp3Player.write
    simp [hp]

/-- Concrete cancelled callback used as the C1 witness input. -/
def c1_cb : Callback :=
  { session := { new_session 1 ["hi"] with stop_event := true }, data_received := 0 }

/-- Concrete cancelled engine used as the C1 witness input. -/
def c1_player : RealtimeMp3Player :=
  { started_player with stop_event := true }

/-- Witness for C1 at a concrete cancelled callback and engine. -/
theorem C1_cancel_suppresses_output_witness :
    c1_cb.session.stop_event = true ∧ c1_player.stop_event = true ∧
    (((c1_cb.on_data 5).2 = false ∧ (c1_cb.on_data 5).1.session = c1_cb.session) ∧
      RealtimeMp3Player.write c1_player 7 = (c1_player, false)) :=
  ⟨rfl, rfl, C1_cancel_suppresses_output c1_cb c1_player 5 7 rfl rfl⟩

/-- C6: stopping twice (graceful or forced, in either order) makes the
second call an early-return no-op: unchanged state and an empty teardown
action list, so nothing is released twice, whatever the starting state. -/
theorem C6_stop_idempotent (p : RealtimeMp3Player) :
    (RealtimeMp3Player.stop (RealtimeMp3Player.stop p).1 = ((RealtimeMp3Player.stop p).1, []) ∧
      RealtimeMp3Player.force_stop (RealtimeMp3Player.stop p).1 =
        ((RealtimeMp3Player.stop p).1, [])) ∧
    (RealtimeMp3Player.force_stop (RealtimeMp3Player.force_stop p).1 =
        ((RealtimeMp3Player.force_stop p).1, []) ∧
      RealtimeMp3Player.stop (RealtimeMp3Player.force_stop p).1 =
        ((RealtimeMp3Player.force_stop p).1, [])) :=
  ⟨⟨RealtimeMp3Player.stop_of_stopped _ (RealtimeMp3Player.stop_fst_is_stopped p),
      RealtimeMp3Player.force_stop_of_stopped _ (RealtimeMp3Player.stop_fst_is_stopped p)⟩,
    ⟨RealtimeMp3Player.force_stop_of_stopped _ (RealtimeMp3Player.force_stop_fst_is_stopped p),
      RealtimeMp3Player.stop_of_stopped _ (RealtimeMp3Player.force_stop_fst_is_stopped p)⟩⟩

/-- The engine state after `start()`, three 100-byte writes, and a graceful
`stop()` with no drain iteration in between (the scenario of C2). -/
def c2_state : RealtimeMp3Player :=
  (RealtimeMp3Player.stop ((((started_player.write 100).1.write 100).1.write 100).1)).1

/-- C2 counterexample: in the write-write-write-stop scenario the snapshot
after the graceful stop reports `buffer_size = 300`, not `0` as the claim
states (graceful `stop` does not reset the counter, and no drain iteration
consumed it); `is_stopped` is true as claimed. -/
theorem C2_counterexample :
    (RealtimeMp3Player.get_buffer_status c2_state).map BufferStatus.buffer_size = some 300 ∧
    ¬ (RealtimeMp3Player.get_buffer_status c2_state).map BufferStatus.buffer_size = some 0 ∧
    (RealtimeMp3Player.get_buffer_status c2_state).map BufferStatus.is_stopped = some true := by
  decide

/-- C2 amended: after three 100-byte writes and a graceful `stop`, the
snapshot reports `is_stopped = true` and `buffer_size` equal to the
undrained remainder (300 when nothing was drained) rather than 0 — graceful
`stop` leaves the counter wherever draining left it — and a second `stop`
returns without error as a no-op performing no teardown action. -/
theorem C2_amended_buffer_after_stop (p : RealtimeMp3Player) :
    (RealtimeMp3Player.get_buffer_status c2_state).map BufferStatus.is_stopped = some true ∧
    (RealtimeMp3Player.get_buffer_status c2_state).map BufferStatus.buffer_size = some 300 ∧
    RealtimeMp3Player.stop c2_state = (c2_state, []) ∧
    ((RealtimeMp3Player.stop p).1).audio_buffer_size = p.audio_buffer_size :=
  ⟨by decide, by decide, RealtimeMp3Player.stop_of_stopped _ (by decide),
    RealtimeMp3Player.stop_fst_buffer p⟩

/-- Controller state with no current session. -/
def empty_controller : ControllerState :=
  { current_session := none, session_counter := 0 }

/-- Controller state with a live current session. -/
def busy_controller : ControllerState :=
  { current_session := some (new_session 1 ["hi"]), session_counter := 1 }

/-- C5 counterexample: invoked with no current session, the `/stop`
endpoint returns the ordinary success record (`status = "stopped"`),
byte-for-byte the same response it returns when a session exists — not an
error result, contrary to the claim. -/
theorem C5_counterexample :
    (stop_speech empty_controller).2 =
      { status := "stopped", message := "Stopped successfully", session_id := none } ∧
    (stop_speech empty_controller).2 = (stop_speech busy_controller).2 :=
  ⟨rfl, rfl⟩

/-- C5 amended: the `/stop` endpoint returns the success response
(`status = "stopped"`) whether or not a current session exists; it never
returns a "no active session" error, and the `session_id` it reports is
always `none` because the field is read after the slot was cleared. -/
theorem C5_amended_stop_always_succeeds (c : ControllerState) :
    (stop_speech c).2.status = "stopped" ∧ (stop_speech c).2.session_id = none := by
  obtain ⟨cs, n⟩ := c
  cases cs <;> simp [stop_speech]

/-- C10 counterexample: `force_stop` on an engine that was already stopped
gracefully (after 300 written bytes, undrained) is an early-return no-op,
so the counter — and the `buffer_size` a subsequent snapshot reports — stays
300, not 0; the claim fails for that prior state. -/
theorem C10_counterexample :
    ((RealtimeMp3Player.force_stop c2_state).1).audio_buffer_size = 300 ∧
    (RealtimeMp3Player.get_buffer_status (RealtimeMp3Player.force_stop c2_state).1).map
        BufferStatus.buffer_size = some 300 := by
  decide

/-- C10 amended: after `force_stop` on an engine that is not already
stopped, the counter is zero and a subsequent snapshot reports
`buffer_size = 0` (force_stop resets the counter during teardown), whereas
graceful `stop` leaves the counter at whatever value draining had reached;
if the engine was already stopped, `force_stop` is a no-op and the counter
keeps its value, as the counterexample shows. -/
theorem C10_amended_force_stop_resets (p q : RealtimeMp3Player) (h : p.is_stopped = false) :
    ((RealtimeMp3Player.force_stop p).1).audio_buffer_size = 0 ∧
    (RealtimeMp3Player.get_buffer_status (RealtimeMp3Player.force_stop p).1).map
        BufferStatus.buffer_size = some 0 ∧
    ((RealtimeMp3Player.stop q).1).audio_buffer_size = q.audio_buffer_size := by
  obtain ⟨hff, hst, hpl, hstop, hbuf⟩ := RealtimeMp3Player.force_stop_fst_released p h
  refine ⟨hbuf, ?_, RealtimeMp3Player.stop_fst_buffer q⟩
  unfold RealtimeMp3Player.get_buffer_status
  simp [hff, hst, hbuf]

/-- Witness for C10 at a concrete freshly started engine. -/
theorem C10_amended_force_stop_resets_witness :
    started_player.is_stopped = false ∧
    (((RealtimeMp3Player.force_stop started_player).1).audio_buffer_size = 0 ∧
      (RealtimeMp3Player.get_buffer_status
          (RealtimeMp3Player.force_stop started_player).1).map
        BufferStatus.buffer_size = some 0 ∧
      ((RealtimeMp3Player.stop c2_state).1).audio_buffer_size = c2_state.audio_buffer_size) :=
  ⟨rfl, C10_amended_force_stop_resets started_player c2_state rfl⟩

/-- Modelled from the spec, for comparison with the source `is_playing`
(claim C3): true iff not yet stopped AND (drain thread alive OR the
pipeline reports running OR the device reports active OR the buffered-byte
counter is positive), with a failed query treated as "not playing". -/
def is_playing_spec (p : RealtimeMp3Player) : Bool :=
  !p.is_stopped &&
    (p.thread_alive
      || (match p.ffmpeg_process with
          | some proc => !proc.poll_fails && proc.running
          | none => false)
      || (match p.stream with
          | some s => !s.active_query_fails && s.active
          | none => false)
      || decide (0 < p.audio_buffer_size))

/-- The amended description of `is_playing` for C3: not an unordered
disjunction but an early-return priority chain - stopped decides first,
then a live drain thread; after that an existing pipeline handle decides
alone (query failure counts as not running, and neither the device nor the
buffer is consulted); only with no pipeline handle does the device decide
(falling through to the buffer test exactly when its query raises); the
buffer test is the last resort. -/
def is_playing_amended (p : RealtimeMp3Player) : Bool :=
  !p.is_stopped &&
    (p.thread_alive ||
      match p.ffmpeg_process with
      | some proc => !proc.poll_fails && proc.running
      | none =>
        match p.stream with
        | some s =>
          if s.active_query_fails then decide (0 < p.audio_buffer_size) else s.active
        | none => decide (0 < p.audio_buffer_size))

/-- Engine state on which the source `is_playing` and the claimed
disjunction disagree: not stopped, drain thread exited, ffmpeg handle
present but the process has exited, device stream active, 300 buffered
bytes. The source returns false at the pipeline check; the claimed
disjunction returns true (device active, buffer positive). -/
def c3_cex : RealtimeMp3Player :=
  { ffmpeg_process := some { stdin_open := true, running := false, poll_fails := false }
    stream := some { active := true, active_query_fails := false }
    player := some ()
    play_thread := some { alive := false }
    stop_event := false
    is_stopped := false
    audio_buffer_size := 300
    spawn_count := 1 }

/-- C3 counterexample: the source `is_playing` is not the claimed
disjunction - at `c3_cex` the code answers false while the claimed
formula answers true. -/
theorem C3_counterexample :
    RealtimeMp3Player.is_playing c3_cex = false ∧ is_playing_spec c3_cex = true := by
  decide

/-- C3 amended: `is_playing` equals the priority chain of
`is_playing_amended` - stopped forces false; a live drain thread forces
true; otherwise an existing pipeline handle alone decides (what `poll()`
reports, false if the query raises, the device and buffer never consulted);
with no pipeline handle, a device whose query succeeds decides, the buffer
check being reached only when there is no device handle or its query
raises. Both sides are total functions, so no query failure raises out of
`is_playing`. -/
theorem C3_amended_is_playing_chain (p : RealtimeMp3Player) :
    RealtimeMp3Player.is_playing p = is_playing_amended p := by
  obtain ⟨ff, st, pl, th, se, isp, buf, sc⟩ := p
  cases isp <;>
    rcases th with _ | ⟨_ | _⟩ <;>
      rcases ff with _ | ⟨_, _, _ | _⟩ <;>
        rfl

/-- Failure oracle with every external step succeeding. -/
def env_ok : WorkerEnv :=
  { start_raises := false
    synth_create_raises := false
    stream_call_raises := []
    complete_raises := false }

/-- C4 counterexample: a worker that runs to completion with no failure
and no external stop ends without any exception escaping, yet the session
is NOT marked stopped - `run_speech` never sets `is_stopped`; only
`SpeechSession.stop` (invoked from the endpoints) does. -/
theorem C4_counterexample :
    (run_speech (new_session 1 ["hi"]) env_ok).2.2 = false ∧
    (run_speech (new_session 1 ["hi"]) env_ok).1.is_stopped = false :=
  ⟨rfl, rfl⟩

/-- The `finally` block leaves the stopped flag of the session unchanged. -/
theorem run_finally_is_stopped (s : SpeechSession) :
    (run_finally s).is_stopped = s.is_stopped := by
  unfold run_finally
  cases h : s.player <;> rfl

/-- C4 amended: whatever step fails, no exception propagates out of the
orchestration worker; but the worker never touches the session stopped
flag - `is_stopped` at worker end equals its value at entry. The flag is
set, at most once, only by the idempotent `SpeechSession.stop`, which the
controller (not the worker) invokes; a session whose worker runs to
completion without an external stop therefore ends with
`is_stopped = false`. -/
theorem C4_amended_worker_never_raises_never_marks (s : SpeechSession) (env : WorkerEnv) :
    (run_speech s env).2.2 = false ∧ (run_speech s env).1.is_stopped = s.is_stopped := by
  unfold run_speech
  by_cases h1 : s.stop_event = true <;> simp [h1]
  by_cases h2 : env.start_raises = true <;> simp [h2]
  by_cases h3 : env.synth_create_raises = true <;>
    simp [h3, run_finally_is_stopped]

/-- The buffered-byte counter after a `write`: unchanged on the no-op
paths, incremented by the frame length when the frame reached the
pipeline. -/
theorem write_fst_buffer (p : RealtimeMp3Player) (n : Nat) :
    ((p.write n).1).audio_buffer_size = p.audio_buffer_size ∨
    ((p.write n).1).audio_buffer_size = p.audio_buffer_size + n := by
  obtain ⟨ff, st, pl, th, se, isp, buf, sc⟩ := p
  cases isp <;> cases se <;>
    rcases ff with _ | ⟨_ | _, _, _⟩ <;>
      rcases th with _ | t <;>
        first
          | exact Or.inl rfl
          | exact Or.inr rfl

/-- `force_stop` leaves the counter nonnegative (it zeroes it or, when
already stopped, leaves it alone). -/
theorem force_stop_fst_buffer_nonneg (p : RealtimeMp3Player)
    (h : 0 ≤ p.audio_buffer_size) :
    0 ≤ ((RealtimeMp3Player.force_stop p).1).audio_buffer_size := by
  obtain ⟨ff, st, pl, th, se, isp, buf, sc⟩ := p
  cases isp <;> rcases th with _ | ⟨_ | _⟩ <;>
    first
      | exact h
      | exact le_refl 0

/-- Every engine event preserves nonnegativity of the counter. -/
theorem player_step_buffer_nonneg (p : RealtimeMp3Player) (e : PlayerEvent)
    (h : 0 ≤ p.audio_buffer_size) : 0 ≤ (player_step p e).audio_buffer_size := by
  cases e with
  | startEv =>
    simp only [player_step]
    unfold RealtimeMp3Player.start
    split <;> exact h
  | writeEv n =>
    simp only [player_step]
    rcases write_fst_buffer p n with hw | hw <;> rw [hw] <;> omega
  | drainEv n =>
    simp only [player_step]
    unfold RealtimeMp3Player.drain_step
    (repeat' split) <;>
      first
        | exact h
        | exact le_max_left (0 : Int) _
  | stopEv =>
    simp only [player_step]
    rw [RealtimeMp3Player.stop_fst_buffer]
    exact h
  | forceStopEv =>
    simp only [player_step]
    exact force_stop_fst_buffer_nonneg p h
  | threadExitEv =>
    simp only [player_step]
    exact h

/-- Nonnegativity of the counter is preserved along any event sequence. -/
theorem player_run_buffer_nonneg (p : RealtimeMp3Player) (es : List PlayerEvent)
    (h : 0 ≤ p.audio_buffer_size) : 0 ≤ (player_run p es).audio_buffer_size := by
  induction es generalizing p with
  | nil => exact h
  | cons e es ih => exact ih _ (player_step_buffer_nonneg p e h)

/-- C7: over any sequence of engine events from a fresh engine - writes
incrementing the counter by the frame length, drain iterations
clamped-decrementing it by the chunk length, interleaved with start, stop,
force-stop and thread exit - the buffered-byte counter never becomes
negative. -/
theorem C7_buffer_never_negative (es : List PlayerEvent) :
    0 ≤ (player_run RealtimeMp3Player.init es).audio_buffer_size :=
  player_run_buffer_nonneg _ es le_rfl

/-- Invariant for C8: at most one drain thread was ever spawned, and if
one was, either its handle is still held or the engine is stopped (so no
later `write` can pass the spawn guard again). -/
def spawn_inv (p : RealtimeMp3Player) : Prop :=
  p.spawn_count ≤ 1 ∧
    (p.spawn_count = 1 → p.play_thread.isSome = true ∨ p.is_stopped = true)

/-- Every engine event preserves the single-spawn invariant. -/
theorem player_step_spawn_inv (p : RealtimeMp3Player) (e : PlayerEvent)
    (h : spawn_inv p) : spawn_inv (player_step p e) := by
  obtain ⟨ff, st, pl, th, se, isp, buf, sc⟩ := p
  obtain ⟨h1, h2⟩ := h
  cases e with
  | startEv => cases isp <;> exact ⟨h1, h2⟩
  | writeEv n =>
    cases isp
    case true => exact ⟨h1, h2⟩
    case false =>
      cases se
      case true => exact ⟨h1, h2⟩
      case false =>
        rcases ff with _ | ⟨so, run, pf⟩
        · exact ⟨h1, h2⟩
        · cases so
          case false => exact ⟨h1, h2⟩
          case true =>
            rcases th with _ | t
            · have hne : sc ≠ 1 := by
                intro hc
                rcases h2 hc with hth | hst
                · simp at hth
                · exact Bool.noConfusion hst
              have h1x : sc ≤ 1 := h1
              refine ⟨?_, fun _ => Or.inl rfl⟩
              show sc + 1 ≤ 1
              omega
            · exact ⟨h1, h2⟩
  | drainEv n =>
    simp only [player_step]
    unfold RealtimeMp3Player.drain_step
    (repeat' split) <;> exact ⟨h1, h2⟩
  | stopEv =>
    cases isp
    case true => exact ⟨h1, h2⟩
    case false =>
      rcases th with _ | ⟨_ | _⟩ <;> exact ⟨h1, fun _ => Or.inr rfl⟩
  | forceStopEv =>
    cases isp
    case true => exact ⟨h1, h2⟩
    case false =>
      rcases th with _ | ⟨_ | _⟩ <;> exact ⟨h1, fun _ => Or.inr rfl⟩
  | threadExitEv =>
    rcases th with _ | t
    · exact ⟨h1, h2⟩
    · exact ⟨h1, fun _ => Or.inl rfl⟩

/-- The single-spawn invariant holds along any event sequence. -/
theorem player_run_spawn_inv (p : RealtimeMp3Player) (es : List PlayerEvent)
    (h : spawn_inv p) : spawn_inv (player_run p es) := by
  induction es generalizing p with
  | nil => exact h
  | cons e es ih => exact ih _ (player_step_spawn_inv p e h)

/-- C8: along any event sequence from a fresh engine at most one drain
thread is ever spawned (`spawn_count` counts the `threading.Thread`
constructions in `write`), and the first successful `write` on a started
engine spawns exactly that one thread while the frame reaches the
pipeline. -/
theorem C8_at_most_one_drain_thread (es : List PlayerEvent) (n : Nat) :
    (player_run RealtimeMp3Player.init es).spawn_count ≤ 1 ∧
    ((started_player.write n).1.spawn_count = 1 ∧ (started_player.write n).2 = true) :=
  ⟨(player_run_spawn_inv _ es ⟨by decide, fun hc => absurd hc (by decide)⟩).1, rfl, rfl⟩

/-- Stopping a not-yet-stopped session with a player force-stops exactly
that player and hands back its torn-down state. -/
theorem session_stop_snd (s : SpeechSession) (pl : RealtimeMp3Player)
    (hs : s.is_stopped = false) (hpl : s.player = some pl) :
    (SpeechSession.stop s).2 = some (RealtimeMp3Player.force_stop pl).1 := by
  unfold SpeechSession.stop
  simp [hs, hpl]

/-- C9: on a `/speak` request while a not-yet-stopped session with a live
engine is current, the controller - synchronously, under its lock - first
stops the previous session (force-stopping its engine: stopped flag set,
device stream, PyAudio handle and decode pipeline all released) and joins
its worker, and only then constructs the new session and spawns its
worker; the new session leaves `begin` with no engine at all
(`player = none`), its engine being created and started only by the worker
launched at the final `spawnWorker` step, so the previous engine is fully
stopped before the next engine can start. -/
theorem C9_previous_engine_stopped_before_next (c : ControllerState) (texts : List String)
    (s : SpeechSession) (pl : RealtimeMp3Player)
    (hc : c.current_session = some s) (hs : s.is_stopped = false)
    (hpl : s.player = some pl) (hlive : pl.is_stopped = false) :
    (start_speech c texts).2.1 =
      [CtrlEvent.stopPrev s.session_id (some (RealtimeMp3Player.force_stop pl).1),
        CtrlEvent.joinPrevThread s.session_id,
        CtrlEvent.createSession (c.session_counter + 1),
        CtrlEvent.spawnWorker (c.session_counter + 1)] ∧
    ((RealtimeMp3Player.force_stop pl).1).is_stopped = true ∧
    ((RealtimeMp3Player.force_stop pl).1).stream = none ∧
    ((RealtimeMp3Player.force_stop pl).1).player = none ∧
    ((RealtimeMp3Player.force_stop pl).1).ffmpeg_process = none ∧
    ((start_speech c texts).1.current_session.map SpeechSession.player) = some none := by
  obtain ⟨hff, hstm, hply, hstp, hbuf⟩ := RealtimeMp3Player.force_stop_fst_released pl hlive
  refine ⟨?_, hstp, hstm, hply, hff, ?_⟩
  · unfold start_speech
    simp [hc, session_stop_snd s pl hs hpl]
  · unfold start_speech
    simp [hc, new_session]

/-- Previous session used as the C9 witness input: a fresh session that
owns a freshly started engine. -/
def c9_prev_session : SpeechSession :=
  { new_session 1 ["a"] with player := some started_player }

/-- Controller used as the C9 witness input. -/
def c9_controller : ControllerState :=
  { current_session := some c9_prev_session, session_counter := 1 }

/-- Witness for C9 at a concrete controller holding a live session. -/
theorem C9_previous_engine_stopped_before_next_witness :
    c9_controller.current_session = some c9_prev_session ∧
    c9_prev_session.is_stopped = false ∧
    c9_prev_session.player = some started_player ∧
    started_player.is_stopped = false ∧
    ((start_speech c9_controller ["b"]).2.1 =
        [CtrlEvent.stopPrev c9_prev_session.session_id
            (some (RealtimeMp3Player.force_stop started_player).1),
          CtrlEvent.joinPrevThread c9_prev_session.session_id,
          CtrlEvent.createSession (c9_controller.session_counter + 1),
          CtrlEvent.spawnWorker (c9_controller.session_counter + 1)] ∧
      ((RealtimeMp3Player.force_stop started_player).1).is_stopped = true ∧
      ((RealtimeMp3Player.force_stop started_player).1).stream = none ∧
      ((RealtimeMp3Player.force_stop started_player).1).player = none ∧
      ((RealtimeMp3Player.force_stop started_player).1).ffmpeg_process = none ∧
      ((start_speech c9_controller ["b"]).1.current_session.map SpeechSession.player) =
        some none) :=
  ⟨rfl, rfl, rfl, rfl,
    C9_previous_engine_stopped_before_next c9_controller ["b"] c9_prev_session started_player
      rfl rfl rfl rfl⟩

end LLMTTS
